import Mathlib

/-!
Verification of the `x-sessions` session-key signing service.

The development shallowly embeds the TypeScript sources
(`src/sessionDappService.ts`, `src/offchainSessionAccount.ts` and the V5
variant).  Starknet SDK primitives (Poseidon hashing, curve signing,
typed-data hashing, call-data compilation, selector hashing, the Merkle
`getProof` routine) are external collaborators and are kept abstract in a
`Prims` record; the repository's own control flow and data assembly are
embedded concretely.
-/

namespace XSessions

/-- Field elements (Starknet felts) are modelled as natural numbers; every
hash and curve primitive is abstract, so the field modulus never enters the
statements. -/
abbrev F := Nat

/-- One allowed (contract address, method selector) pair of a session, an
entry of `OffChainSession.allowed_methods`.  The selector is the
human-readable method name, as in the source (`"Contract Address"` /
`selector` fields). -/
structure AllowedMethod where
  contractAddress : F
  selector : String

/-- A call of the batch to be signed (starknet `Call`): contract address,
entrypoint name and calldata. -/
structure Call where
  contractAddress : F
  entrypoint : String
  calldata : List F

/-- The session request (`OffChainSession` of `sessionTypes.ts`): expiry,
ordered allowed methods, opaque JSON metadata string and the session key
guid. -/
structure OffChainSession where
  expires_at : F
  allowed_methods : List AllowedMethod
  metadata : String
  session_key_guid : F

/-- The compiled session (`OnChainSession`).  The Merkle root is an
`Option` because the underlying starknet.js tree construction diverges on an
empty leaf list (modelled as `none`). -/
structure OnChainSession where
  expires_at : F
  allowed_methods_root : Option F
  metadata_hash : F
  session_key_guid : F

/-- Modelled from the spec: the typed-data document produced by
`getSessionTypedData` (`src/utils.ts`, which is not among the sources): a
chain-bound structured document with fields `expires_at`,
`allowed_methods_root`, `metadata_hash`, `session_key_guid` (spec section 6). -/
structure TypedData where
  chainId : F
  expires_at : F
  allowed_methods_root : F
  metadata_hash : F
  session_key_guid : F

/-- Modelled from the spec: the signer-type enum used to tag signatures for
on-chain dispatch (`sessionTypes.ts` is not among the sources; the spec
mandates a signer-type tag with a `Starknet` variant used by this
protocol). -/
inductive SignerType
  | starknet
  | secp256k1
  | secp256r1
  | eip191
  | webauthn

/-- Modelled from the spec: the result of `signerTypeToCustomEnum`
(`signerTypeToCustomEnum.ts` is not among the sources): a Starknet-style
signature `{pubkey, r, s}` wrapped with a signer-type tag. -/
structure TaggedSignature where
  signerType : SignerType
  pubkey : F
  r : F
  s : F

/-- The backend guardian co-signature (`BackendSignatureResponse`):
`{publicKey, r, s}`. -/
structure GuardianSig where
  publicKey : F
  r : F
  s : F

/-- The dapp's session key pair (`DappKey`). -/
structure DappKey where
  privateKey : F
  publicKey : F

/-- The wire struct assembled by `compileSessionTokenHelper`: session
struct, cache flag, owner authorization, the two tagged signatures, and the
per-call Merkle proofs (each proof is the library `getProof` result, which
may be a thrown error). -/
structure SessionToken where
  session : OnChainSession
  cache_authorization : Bool
  session_authorization : List F
  sessionSignature : TaggedSignature
  guardianSignature : TaggedSignature
  proofs : List (Except String (List F))

/-- Data-availability mode enum (`EDataAvailabilityMode`). -/
inductive DAMode
  | L1
  | L2

/-- `stark.intDAM`: maps the data-availability-mode enum to its integer code
(L1 to 0, L2 to 1). -/
def intDAM : DAMode → Nat
  | .L1 => 0
  | .L2 => 1

/-- `InvocationsSignerDetails`: a single record carrying both the V2 fields
(`maxFee`) and the V3 fields, mirroring the unchecked casts
`as V2InvocationsSignerDetails` / `as V3InvocationsSignerDetails` in the
source. -/
structure SignerDetails where
  walletAddress : F
  chainId : F
  nonce : F
  version : String
  cairoVersion : String
  maxFee : F
  tip : F
  paymasterData : List F
  accountDeploymentData : List F
  resourceBounds : F
  nonceDataAvailabilityMode : DAMode
  feeDataAvailabilityMode : DAMode

/-- The version strings of `RPC.ETransactionVersion2` (starknet-types): the
V2-family transaction versions, including the fee-estimate variants. -/
def eTransactionVersion2Values : List String :=
  ["0x0", "0x1", "0x2",
   "0x100000000000000000000000000000000",
   "0x100000000000000000000000000000001",
   "0x100000000000000000000000000000002"]

/-- The version strings of `RPC.ETransactionVersion3` (starknet-types). -/
def eTransactionVersion3Values : List String :=
  ["0x3", "0x100000000000000000000000000000003"]

/-- The external SDK collaborators, kept abstract: Poseidon hashes, curve
signing, typed-data message hashing, selector hashing, short-string
encoding, execute-calldata compilation, the two invoke-hash formulas
selected by `hash.calculateInvokeTransactionHash`, the Merkle `getProof`
routine (taking the possibly-undefined leaf that the caller looked up), the
call-data compilation of the session token, and the `ALLOWED_METHOD_HASH`
domain tag (a constant of `src/utils.ts`, not among the sources; the spec
calls it the allowed-method domain tag). -/
structure Prims where
  poseidon : List F → F
  poseidon2 : F → F → F
  sign : F → F → F × F
  getMessageHash : TypedData → F → F
  getSelectorFromName : String → F
  encodeShortString : String → F
  getExecuteCalldata : List Call → String → List F
  calcInvokeV2 : F → List F → F → String → F → F → F
  calcInvokeV3 : F → List F → String → F → F → F → List F → List F → F → Nat → Nat → F
  getProof : Option F → List F → Except String (List F)
  compileTokenCalldata : SessionToken → List F
  allowedMethodHash : F

/-- The sorted-pair node hash of starknet.js `MerkleTree.hash`: the two
children are ordered ascending before hashing. -/
def merkleHash (P : Prims) (a b : F) : F :=
  if a ≤ b then P.poseidon2 a b else P.poseidon2 b a

/-- One level of the starknet.js `MerkleTree.build` pairing loop: adjacent
leaves are hashed pairwise, an unpaired trailing leaf is hashed with 0. -/
def pairUp (P : Prims) : List F → List F
  | [] => []
  | [a] => [merkleHash P a 0]
  | a :: b :: rest => merkleHash P a b :: pairUp P rest

theorem pairUp_length (P : Prims) : (l : List F) → (pairUp P l).length = (l.length + 1) / 2
  | [] => rfl
  | [_] => by simp [pairUp]
  | _ :: _ :: rest => by
    simp only [pairUp, List.length_cons, pairUp_length P rest]
    omega

/-- starknet.js `MerkleTree.build`: a single leaf is the root, otherwise
recurse on the paired-up level.  The empty list, on which the original
recursion never terminates, yields `none`. -/
def build (P : Prims) (l : List F) : Option F :=
  match l with
  | [] => none
  | [x] => some x
  | a :: b :: rest => build P (pairUp P (a :: b :: rest))
termination_by l.length
decreasing_by
  simp only [pairUp_length, List.length_cons]
  omega

/-- The tree data used by the service: the leaf list and the root. -/
structure MerkleTreeB where
  leaves : List F
  root : Option F

/-- `DappService.buildMerkleTree`: leaves are
`poseidon(ALLOWED_METHOD_HASH, contractAddress, selectorFromName name)` in
the order of `allowed_methods`, and the tree is built over them with the
Poseidon node hash. -/
def buildMerkleTree (P : Prims) (sessionRequest : OffChainSession) : MerkleTreeB :=
  let leaves := sessionRequest.allowed_methods.map (fun method =>
    P.poseidon [P.allowedMethodHash, method.contractAddress,
                P.getSelectorFromName method.selector])
  { leaves := leaves, root := build P leaves }

/-- JavaScript `Array.prototype.findIndex` accumulator: index of the first
element satisfying the predicate, `-1` if none does. -/
def findIndexAux {α : Type} (p : α → Bool) : List α → Int → Int
  | [], _ => -1
  | a :: t, i => if p a then i else findIndexAux p t (i + 1)

/-- JavaScript `findIndex`. -/
def findIndexJS {α : Type} (p : α → Bool) (l : List α) : Int :=
  findIndexAux p l 0

/-- JavaScript array indexing `l[i]` with a possibly negative index:
a negative index (in particular `-1`) yields `undefined`, modelled as
`none`. -/
def jsIndex (l : List F) (i : Int) : Option F :=
  if i < 0 then none else l.get? i.toNat

/-- `DappService.getSessionProofs`: build the tree, then for each call look
up the index of a matching allowed method (`-1` when absent) and hand the
leaf found at that index — `undefined` for `-1` — to the library `getProof`
together with the leaf list. -/
def getSessionProofs (P : Prims) (sessionRequest : OffChainSession)
    (calls : List Call) : List (Except String (List F)) :=
  let tree := buildMerkleTree P sessionRequest
  calls.map (fun call =>
    let allowedIndex := findIndexJS (fun allowedMethod =>
      allowedMethod.contractAddress == call.contractAddress &&
      allowedMethod.selector == call.entrypoint) sessionRequest.allowed_methods
    P.getProof (jsIndex tree.leaves allowedIndex) tree.leaves)

/-- starknet.js `splitLongString`: the string's characters in chunks of at
most 31, all but the last chunk full. -/
def splitLongString (l : List Char) : List (List Char) :=
  match l with
  | [] => []
  | c :: cs => ((c :: cs).take 31) :: splitLongString (cs.drop 30)
termination_by l.length
decreasing_by
  simp only [List.length_drop, List.length_cons]
  omega

/-- starknet.js `ByteArray`: full 31-character words, the pending tail word
and its length. -/
structure ByteArrayStruct where
  data : List F
  pending_word : F
  pending_word_len : Nat

/-- starknet.js `byteArrayFromString`: split into 31-character chunks, encode
each as a short string; if the last chunk is full (or the string is empty)
the pending word is 0 of length 0, otherwise the last chunk is moved into
the pending word. -/
def byteArrayFromString (P : Prims) (target : String) : ByteArrayStruct :=
  let shortStrings := splitLongString target.data
  match shortStrings.getLast? with
  | none => { data := [], pending_word := 0, pending_word_len := 0 }
  | some remainder =>
    let encoded := shortStrings.map (fun c => P.encodeShortString (String.mk c))
    if remainder.length = 31 then
      { data := encoded, pending_word := 0, pending_word_len := 0 }
    else
      { data := encoded.dropLast,
        pending_word := P.encodeShortString (String.mk remainder),
        pending_word_len := remainder.length }

/-- `DappService.compileSessionHelper`: the metadata hash is the Poseidon
hash of `[data.length, ...data, pending_word, pending_word_len]` of the
metadata byte array, and the root is the Merkle root of the allowed-methods
tree. -/
def compileSessionHelper (P : Prims) (sessionRequest : OffChainSession) : OnChainSession :=
  let bArray := byteArrayFromString P sessionRequest.metadata
  let elements : List F :=
    bArray.data.length :: bArray.data ++ [bArray.pending_word, bArray.pending_word_len]
  { expires_at := sessionRequest.expires_at
    allowed_methods_root := (buildMerkleTree P sessionRequest).root
    metadata_hash := P.poseidon elements
    session_key_guid := sessionRequest.session_key_guid }

/-- Modelled from the spec: `getSessionTypedData` (`src/utils.ts`, not among
the sources) produces the domain-separated, chain-bound typed-data document
for the session: expiry, allowed-methods root, metadata hash and session key
guid (spec sections 4.2 and 6). -/
def getSessionTypedData (P : Prims) (sessionRequest : OffChainSession)
    (chainId : F) : TypedData :=
  { chainId := chainId
    expires_at := sessionRequest.expires_at
    allowed_methods_root := ((buildMerkleTree P sessionRequest).root).getD 0
    metadata_hash := (compileSessionHelper P sessionRequest).metadata_hash
    session_key_guid := sessionRequest.session_key_guid }

/-- The JavaScript unary plus on a boolean: `+true = 1`, `+false = 0`. -/
def boolToFelt (b : Bool) : F := if b then 1 else 0

/-- The combined hash signed by both the session key and the guardian
(`sessionWithTxHash` inside `DappService.signTxAndSession`):
`poseidon(transactionHash, sessionMessageHash, cacheAuthorisation as 0/1)`. -/
def combinedHash (P : Prims) (transactionHash sessionMessageHash : F)
    (cacheAuthorisation : Bool) : F :=
  P.poseidon [transactionHash, sessionMessageHash, boolToFelt cacheAuthorisation]

/-- `DappService.signTxAndSession`: hash the typed data bound to the account
address, combine with the transaction hash and the cache flag, sign with the
dapp's private key and return `[r, s]`. -/
def signTxAndSession (P : Prims) (dappKey : DappKey) (transactionHash : F)
    (accountAddress : F) (sessionTypedData : TypedData)
    (cacheAuthorisation : Bool) : List F :=
  let sessionMessageHash := P.getMessageHash sessionTypedData accountAddress
  let sessionWithTxHash := combinedHash P transactionHash sessionMessageHash cacheAuthorisation
  let signature := P.sign sessionWithTxHash dappKey.privateKey
  [signature.1, signature.2]

/-- Modelled from the spec: `signerTypeToCustomEnum`
(`signerTypeToCustomEnum.ts`, not among the sources) wraps a `{pubkey, r, s}`
signature with the given signer-type tag. -/
def signerTypeToCustomEnum (t : SignerType) (pubkey r s : F) : TaggedSignature :=
  { signerType := t, pubkey := pubkey, r := r, s := s }

/-- `DappService.getStarknetSignatureType`: tag a `[r, s]` signature with the
`Starknet` signer type. -/
def getStarknetSignatureType (pubkey : F) (signature : List F) : TaggedSignature :=
  signerTypeToCustomEnum SignerType.starknet pubkey
    (signature.getD 0 0) (signature.getD 1 0)

/-- `DappService.compileSessionTokenHelper`: assemble the wire struct from
the compiled session, the cache flag, the untouched owner authorization, the
two tagged signatures and the per-call proofs. -/
def compileSessionTokenHelper (P : Prims) (dappKey : DappKey)
    (session : OnChainSession) (sessionRequest : OffChainSession)
    (calls : List Call) (sessionSignature : List F)
    (session_authorization : List F) (guardianSignature : GuardianSig)
    (cache_authorization : Bool) : SessionToken :=
  { session := session
    cache_authorization := cache_authorization
    session_authorization := session_authorization
    sessionSignature := getStarknetSignatureType dappKey.publicKey sessionSignature
    guardianSignature := getStarknetSignatureType guardianSignature.publicKey
      [guardianSignature.r, guardianSignature.s]
    proofs := getSessionProofs P sessionRequest calls }

/-- The magic marker `SESSION_MAGIC = encodeShortString("session-token")`. -/
def SESSION_MAGIC (P : Prims) : F := P.encodeShortString "session-token"

/-- The backend guardian collaborator
(`ArgentBackendService.signTxAndSession`), modelled as a pure function of
the arguments the source passes it. -/
def BackendFn : Type :=
  List Call → SignerDetails → TypedData → List F → Bool → GuardianSig

/-- `DappService.compileSessionSignature`: compile the session, build the
typed data, sign with the session key, obtain the guardian co-signature,
assemble the token and prepend the magic marker to its call-data
compilation. -/
def compileSessionSignature (P : Prims) (argentBackend : BackendFn)
    (dappKey : DappKey) (chainId : F)
    (sessionAuthorizationSignature : List F)
    (sessionRequest : OffChainSession) (transactionHash : F)
    (calls : List Call) (accountAddress : F)
    (invocationSignerDetails : SignerDetails)
    (cacheAuthorisation : Bool) : List F :=
  let session := compileSessionHelper P sessionRequest
  let sessionTypedData := getSessionTypedData P sessionRequest chainId
  let sessionSignature :=
    signTxAndSession P dappKey transactionHash accountAddress sessionTypedData cacheAuthorisation
  let guardianSignature :=
    argentBackend calls invocationSignerDetails sessionTypedData sessionSignature cacheAuthorisation
  let sessionToken :=
    compileSessionTokenHelper P dappKey session sessionRequest calls sessionSignature
      sessionAuthorizationSignature guardianSignature cacheAuthorisation
  SESSION_MAGIC P :: P.compileTokenCalldata sessionToken

/-- `DappService.signTransaction`: compile the execute calldata, dispatch on
the transaction version (V2 family uses the legacy invoke-hash formula, V3
family the V3 formula with the data-availability modes mapped to integer
codes, anything else is a hard error), then hand the hash to
`compileSessionSignature`. -/
def signTransaction (P : Prims) (argentBackend : BackendFn) (dappKey : DappKey)
    (chainId : F) (sessionAuthorizationSignature : List F)
    (sessionRequest : OffChainSession) (calls : List Call)
    (invocationSignerDetails : SignerDetails)
    (cacheAuthorisation : Bool) : Except String (List F) :=
  let compiledCalldata := P.getExecuteCalldata calls invocationSignerDetails.cairoVersion
  if invocationSignerDetails.version ∈ eTransactionVersion2Values then
    let txHash := P.calcInvokeV2 invocationSignerDetails.walletAddress compiledCalldata
      invocationSignerDetails.maxFee invocationSignerDetails.version
      invocationSignerDetails.chainId invocationSignerDetails.nonce
    Except.ok (compileSessionSignature P argentBackend dappKey chainId
      sessionAuthorizationSignature sessionRequest txHash calls
      invocationSignerDetails.walletAddress invocationSignerDetails cacheAuthorisation)
  else if invocationSignerDetails.version ∈ eTransactionVersion3Values then
    let txHash := P.calcInvokeV3 invocationSignerDetails.walletAddress compiledCalldata
      invocationSignerDetails.version invocationSignerDetails.chainId
      invocationSignerDetails.nonce invocationSignerDetails.tip
      invocationSignerDetails.paymasterData invocationSignerDetails.accountDeploymentData
      invocationSignerDetails.resourceBounds
      (intDAM invocationSignerDetails.nonceDataAvailabilityMode)
      (intDAM invocationSignerDetails.feeDataAvailabilityMode)
    Except.ok (compileSessionSignature P argentBackend dappKey chainId
      sessionAuthorizationSignature sessionRequest txHash calls
      invocationSignerDetails.walletAddress invocationSignerDetails cacheAuthorisation)
  else
    Except.error "unsupported signTransaction version"

/-- The `SessionSigner` wrapper class: it holds the transaction-signing
callback installed by `getAccountWithSessionSigner`. -/
structure SessionSigner where
  signTransactionCallback : List Call → SignerDetails → Except String (List F)

/-- `SessionSigner.signRaw`: unconditionally throws
`Error("Method not implemented.")`. -/
def SessionSigner.signRaw (_ : SessionSigner) (_ : String) :
    Except String (List String) :=
  Except.error "Method not implemented."

/-- `SessionSigner.signTransaction`: delegates to the stored callback. -/
def SessionSigner.signTransaction (s : SessionSigner) (calls : List Call)
    (invocationSignerDetails : SignerDetails) : Except String (List F) :=
  s.signTransactionCallback calls invocationSignerDetails

/-- A call as submitted by `OffchainSessionAccount` (`OffchainSessionCall`
without the optional details payload, which is not part of the calldata). -/
structure OffchainSessionCall where
  contractAddress : F
  entrypoint : String
  calldata : List F

/-- `OffchainSessionAccount.sessionToCall` (identical in the V5 variant):
the prepended session call targets the account's own address with
entrypoint `use_offchain_session`, and its calldata compiles the object
`{signer, token1, token2, token3, token4, token5, token6}` in property
order: the signer public key, the two dapp-signature elements, then the
owner and cosigner halves of the stored session signature. -/
def sessionToCall (address : F) (signerPubKey : F)
    (sessionSignature : List F) (dappSignature : List F) : OffchainSessionCall :=
  { contractAddress := address
    entrypoint := "use_offchain_session"
    calldata := [signerPubKey,
                 dappSignature.getD 0 0, dappSignature.getD 1 0,
                 sessionSignature.getD 0 0, sessionSignature.getD 1 0,
                 sessionSignature.getD 2 0, sessionSignature.getD 3 0] }

/-- `OffchainSessionAccount.extendCallsBySession` (identical in the V5
variant): prepend the session call to the batch. -/
def extendCallsBySession (address : F) (signerPubKey : F)
    (sessionSignature : List F) (calls : List OffchainSessionCall)
    (dappSignature : List F) : List OffchainSessionCall :=
  sessionToCall address signerPubKey sessionSignature dappSignature :: calls

/-- An injective encoding of felt lists into naturals, used to witness that
the collision-resistance hypotheses on the abstract Poseidon hash are
satisfiable. -/
def encodeFelts : List F → Nat
  | [] => 0
  | x :: t => Nat.pair x (encodeFelts t) + 1

theorem encodeFelts_injective : Function.Injective encodeFelts := by
  intro a
  induction a with
  | nil =>
    intro b h
    cases b with
    | nil => rfl
    | cons y s => simp [encodeFelts] at h
  | cons x t ih =>
    intro b h
    cases b with
    | nil => simp [encodeFelts] at h
    | cons y s =>
      simp only [encodeFelts, Nat.add_right_cancel_iff] at h
      obtain ⟨hx, ht⟩ := Nat.pair_eq_pair.mp h
      rw [hx, ih ht]

/-- A concrete instantiation of the abstract SDK primitives, with an
injective Poseidon, used to evaluate the definitions on closed inputs. -/
def testPrims : Prims :=
  { poseidon := encodeFelts
    poseidon2 := fun a b => Nat.pair a b + 1
    sign := fun h k => (h + k, h + 2 * k + 1)
    getMessageHash := fun td a => Nat.pair td.chainId a + 3
    getSelectorFromName := fun s => s.length + 11
    encodeShortString := fun s => s.length + 13
    getExecuteCalldata := fun calls _ => calls.map (fun c => c.contractAddress)
    calcInvokeV2 := fun sender calldata maxFee _ chainId nonce =>
      sender + calldata.length + maxFee + chainId + nonce
    calcInvokeV3 := fun sender calldata _ chainId nonce tip pm ad rb ndam fdam =>
      sender + calldata.length + chainId + nonce + tip + pm.length + ad.length
        + rb + 2 * ndam + 3 * fdam
    getProof := fun leaf leaves =>
      match leaf with
      | none => Except.error "leaf not found"
      | some x => Except.ok (x :: leaves)
    compileTokenCalldata := fun t => t.session_authorization
    allowedMethodHash := 17 }

def testKey : DappKey := { privateKey := 21, publicKey := 22 }

def testMethod : AllowedMethod := { contractAddress := 100, selector := "transfer" }

def testReq : OffChainSession :=
  { expires_at := 999
    allowed_methods := [testMethod]
    metadata := "m"
    session_key_guid := 7 }

def testCallBad : Call := { contractAddress := 200, entrypoint := "other", calldata := [] }

def testBackend : BackendFn := fun _ _ _ _ _ => { publicKey := 30, r := 31, s := 32 }

def dV2 : SignerDetails :=
  { walletAddress := 1
    chainId := 2
    nonce := 3
    version := "0x2"
    cairoVersion := "1"
    maxFee := 4
    tip := 0
    paymasterData := []
    accountDeploymentData := []
    resourceBounds := 0
    nonceDataAvailabilityMode := DAMode.L1
    feeDataAvailabilityMode := DAMode.L1 }

def dV3 : SignerDetails :=
  { dV2 with
    version := "0x3"
    nonceDataAvailabilityMode := DAMode.L1
    feeDataAvailabilityMode := DAMode.L2 }

def dBad : SignerDetails := { dV2 with version := "0x99" }

theorem findIndexAux_eq_neg_one {α : Type} (p : α → Bool) (l : List α)
    (h : ∀ x ∈ l, p x = false) : ∀ i, findIndexAux p l i = -1 := by
  induction l with
  | nil => intro i; rfl
  | cons a t ih =>
    intro i
    have ha := h a (List.mem_cons_self a t)
    rw [findIndexAux, ha]
    simp only [Bool.false_eq_true, if_false]
    exact ih (fun x hx => h x (List.mem_cons_of_mem a hx)) (i + 1)

/-- Claim C1: for every transaction hash, account address, session typed
data and cache flag, the value `signTxAndSession` signs with the dapp's
session key is the Poseidon hash of the triple (transaction hash, typed-data
message hash of the session bound to the account address, cache flag encoded
as 0 or 1), and the returned array is that signature's `[r, s]`. -/
theorem signTxAndSession_signs_combined_poseidon (P : Prims) (dappKey : DappKey)
    (transactionHash accountAddress : F) (sessionTypedData : TypedData)
    (cacheAuthorisation : Bool) :
    signTxAndSession P dappKey transactionHash accountAddress sessionTypedData
        cacheAuthorisation =
      [(P.sign (P.poseidon [transactionHash,
          P.getMessageHash sessionTypedData accountAddress,
          if cacheAuthorisation then 1 else 0]) dappKey.privateKey).1,
       (P.sign (P.poseidon [transactionHash,
          P.getMessageHash sessionTypedData accountAddress,
          if cacheAuthorisation then 1 else 0]) dappKey.privateKey).2] := rfl

/-- Claim C2: `signTransaction` computes the transaction hash with the
legacy V2 invoke-hash formula for every V2-family version, with the V3
formula (the data-availability modes each mapped to their integer code) for
every V3-family version, and fails with the unsupported-version error for
any other version — with a result independent of the backend, i.e. without
calling it. -/
theorem signTransaction_version_dispatch (P : Prims) (argentBackend : BackendFn)
    (dappKey : DappKey) (chainId : F) (auth : List F) (req : OffChainSession)
    (calls : List Call) (d : SignerDetails) (cache : Bool) :
    (d.version ∈ eTransactionVersion2Values →
      signTransaction P argentBackend dappKey chainId auth req calls d cache =
        Except.ok (compileSessionSignature P argentBackend dappKey chainId auth req
          (P.calcInvokeV2 d.walletAddress (P.getExecuteCalldata calls d.cairoVersion)
            d.maxFee d.version d.chainId d.nonce)
          calls d.walletAddress d cache)) ∧
    (d.version ∈ eTransactionVersion3Values →
      signTransaction P argentBackend dappKey chainId auth req calls d cache =
        Except.ok (compileSessionSignature P argentBackend dappKey chainId auth req
          (P.calcInvokeV3 d.walletAddress (P.getExecuteCalldata calls d.cairoVersion)
            d.version d.chainId d.nonce d.tip d.paymasterData d.accountDeploymentData
            d.resourceBounds (intDAM d.nonceDataAvailabilityMode)
            (intDAM d.feeDataAvailabilityMode))
          calls d.walletAddress d cache)) ∧
    (d.version ∉ eTransactionVersion2Values → d.version ∉ eTransactionVersion3Values →
      ∀ backend2 : BackendFn,
        signTransaction P backend2 dappKey chainId auth req calls d cache =
          Except.error "unsupported signTransaction version") := by
  refine ⟨fun h2 => ?_, fun h3 => ?_, fun h2 h3 backend2 => ?_⟩
  · simp [signTransaction, h2]
  · have h2 : d.version ∉ eTransactionVersion2Values := by
      simp only [eTransactionVersion3Values, List.mem_cons, List.mem_singleton,
        List.not_mem_nil, or_false] at h3
      rcases h3 with h | h <;> rw [h] <;> decide
    simp [signTransaction, h2, h3]
  · simp [signTransaction, h2, h3]

/-- Claim C2, evaluated: a V2 version uses the V2 formula, a V3 version the
V3 formula with integer data-availability codes, and the unknown version
`"0x99"` is rejected with the unsupported-version error. -/
theorem signTransaction_version_dispatch_check :
    (signTransaction testPrims testBackend testKey 5 [] testReq [] dV2 false =
      Except.ok (compileSessionSignature testPrims testBackend testKey 5 [] testReq
        (testPrims.calcInvokeV2 dV2.walletAddress
          (testPrims.getExecuteCalldata [] dV2.cairoVersion)
          dV2.maxFee dV2.version dV2.chainId dV2.nonce)
        [] dV2.walletAddress dV2 false)) ∧
    (signTransaction testPrims testBackend testKey 5 [] testReq [] dV3 false =
      Except.ok (compileSessionSignature testPrims testBackend testKey 5 [] testReq
        (testPrims.calcInvokeV3 dV3.walletAddress
          (testPrims.getExecuteCalldata [] dV3.cairoVersion)
          dV3.version dV3.chainId dV3.nonce dV3.tip dV3.paymasterData
          dV3.accountDeploymentData dV3.resourceBounds
          (intDAM dV3.nonceDataAvailabilityMode) (intDAM dV3.feeDataAvailabilityMode))
        [] dV3.walletAddress dV3 false)) ∧
    (signTransaction testPrims testBackend testKey 5 [] testReq [] dBad false =
      Except.error "unsupported signTransaction version") :=
  ⟨(signTransaction_version_dispatch testPrims testBackend testKey 5 [] testReq []
      dV2 false).1 (by decide),
   (signTransaction_version_dispatch testPrims testBackend testKey 5 [] testReq []
      dV3 false).2.1 (by decide),
   (signTransaction_version_dispatch testPrims testBackend testKey 5 [] testReq []
      dBad false).2.2 (by decide) (by decide) testBackend⟩

/-- Claim C3: for every signing request, `compileSessionSignature` returns
an array whose first element is the magic constant
`encodeShortString("session-token")` and whose remaining elements are the
call-data compilation of the compiled SessionToken: session struct, cache
flag, authorization signature, tagged session signature, tagged guardian
signature, and proofs. -/
theorem compileSessionSignature_magic_and_token (P : Prims)
    (argentBackend : BackendFn) (dappKey : DappKey) (chainId : F)
    (auth : List F) (req : OffChainSession) (transactionHash : F)
    (calls : List Call) (accountAddress : F) (d : SignerDetails)
    (cache : Bool) :
    compileSessionSignature P argentBackend dappKey chainId auth req
        transactionHash calls accountAddress d cache =
      P.encodeShortString "session-token" ::
        P.compileTokenCalldata
          { session := compileSessionHelper P req
            cache_authorization := cache
            session_authorization := auth
            sessionSignature := getStarknetSignatureType dappKey.publicKey
              (signTxAndSession P dappKey transactionHash accountAddress
                (getSessionTypedData P req chainId) cache)
            guardianSignature := getStarknetSignatureType
              (argentBackend calls d (getSessionTypedData P req chainId)
                (signTxAndSession P dappKey transactionHash accountAddress
                  (getSessionTypedData P req chainId) cache) cache).publicKey
              [(argentBackend calls d (getSessionTypedData P req chainId)
                  (signTxAndSession P dappKey transactionHash accountAddress
                    (getSessionTypedData P req chainId) cache) cache).r,
               (argentBackend calls d (getSessionTypedData P req chainId)
                  (signTxAndSession P dappKey transactionHash accountAddress
                    (getSessionTypedData P req chainId) cache) cache).s]
            proofs := getSessionProofs P req calls } := rfl

/-- Claim C4: a call with no matching allowed method makes the index lookup
in `getSessionProofs` yield `-1`, and the proof produced for that call is
the library `getProof` applied to the undefined (`none`) leaf found at index
`-1` — no distinct UnauthorizedCallProof error is raised by the service. -/
theorem getSessionProofs_unmatched_call (P : Prims) (req : OffChainSession)
    (calls : List Call) (i : Nat) (hi : i < calls.length)
    (hnomatch : ∀ m ∈ req.allowed_methods,
      ¬(m.contractAddress = (calls.get ⟨i, hi⟩).contractAddress ∧
        m.selector = (calls.get ⟨i, hi⟩).entrypoint)) :
    findIndexJS (fun m =>
        m.contractAddress == (calls.get ⟨i, hi⟩).contractAddress &&
        m.selector == (calls.get ⟨i, hi⟩).entrypoint) req.allowed_methods = -1 ∧
    (getSessionProofs P req calls).get? i =
      some (P.getProof none (buildMerkleTree P req).leaves) := by
  have hfalse : ∀ m ∈ req.allowed_methods,
      (m.contractAddress == (calls.get ⟨i, hi⟩).contractAddress &&
       m.selector == (calls.get ⟨i, hi⟩).entrypoint) = false := by
    intro m hm
    have hne := hnomatch m hm
    cases hc1 : (m.contractAddress == (calls.get ⟨i, hi⟩).contractAddress) with
    | false => simp
    | true =>
      cases hc2 : (m.selector == (calls.get ⟨i, hi⟩).entrypoint) with
      | false => simp
      | true =>
        exact absurd ⟨beq_iff_eq.mp hc1, beq_iff_eq.mp hc2⟩ hne
  have hidx : findIndexJS (fun m =>
      m.contractAddress == (calls.get ⟨i, hi⟩).contractAddress &&
      m.selector == (calls.get ⟨i, hi⟩).entrypoint) req.allowed_methods = -1 :=
    findIndexAux_eq_neg_one _ _ hfalse 0
  refine ⟨hidx, ?_⟩
  have hget : calls.get? i = some (calls.get ⟨i, hi⟩) := List.get?_eq_get hi
  simp only [getSessionProofs, List.get?_map, hget, Option.map_some', Option.some.injEq]
  rw [hidx]
  norm_num [jsIndex]

/-- Claim C4, evaluated: one allowed method, one non-matching call; the
lookup yields `-1` and the per-call result is the library response to the
undefined leaf. -/
theorem getSessionProofs_unmatched_call_check :
    findIndexJS (fun m =>
        m.contractAddress == ([testCallBad].get ⟨0, Nat.zero_lt_one⟩).contractAddress &&
        m.selector == ([testCallBad].get ⟨0, Nat.zero_lt_one⟩).entrypoint)
      testReq.allowed_methods = -1 ∧
    (getSessionProofs testPrims testReq [testCallBad]).get? 0 =
      some (testPrims.getProof none (buildMerkleTree testPrims testReq).leaves) :=
  getSessionProofs_unmatched_call testPrims testReq [testCallBad] 0
    Nat.zero_lt_one (by decide)

/-- Claim C5: within one compilation, the `allowed_methods_root` placed in
the compiled OnChainSession is the root of exactly the Merkle tree from
which `getSessionProofs` generates the per-call proofs — both are built by
`buildMerkleTree` from the same `allowed_methods` sequence in the same
order. -/
theorem allowed_methods_root_consistent (P : Prims) (req : OffChainSession)
    (calls : List Call) :
    (compileSessionHelper P req).allowed_methods_root = (buildMerkleTree P req).root ∧
    getSessionProofs P req calls = calls.map (fun call =>
      P.getProof
        (jsIndex (buildMerkleTree P req).leaves
          (findIndexJS (fun m =>
            m.contractAddress == call.contractAddress &&
            m.selector == call.entrypoint) req.allowed_methods))
        (buildMerkleTree P req).leaves) :=
  ⟨rfl, rfl⟩

/-- Claim C6: the `metadata_hash` of the compiled OnChainSession is the
Poseidon hash of the sequence obtained from the byte-array encoding of the
metadata string: the number of full data words, the data words, the pending
tail word, and the pending word's length, in that order. -/
theorem metadata_hash_length_prefixed (P : Prims) (req : OffChainSession) :
    (compileSessionHelper P req).metadata_hash =
      P.poseidon (((byteArrayFromString P req.metadata).data.length : F) ::
        (byteArrayFromString P req.metadata).data ++
        [(byteArrayFromString P req.metadata).pending_word,
         ((byteArrayFromString P req.metadata).pending_word_len : F)]) := rfl

/-- Claim C7: with the transaction hash, account address and session typed
data fixed, the combined hash with the cache flag false differs from the one
with the cache flag true, since the two Poseidon inputs differ in their
third element (0 versus 1) and the hash is collision-free. -/
theorem combinedHash_cache_flag_changes (P : Prims)
    (hinj : Function.Injective P.poseidon) (transactionHash accountAddress : F)
    (sessionTypedData : TypedData) :
    combinedHash P transactionHash
        (P.getMessageHash sessionTypedData accountAddress) false ≠
      combinedHash P transactionHash
        (P.getMessageHash sessionTypedData accountAddress) true := by
  intro heq
  have h := hinj heq
  simp [boolToFelt] at h

/-- Claim C7, evaluated with an injective Poseidon instantiation. -/
theorem combinedHash_cache_flag_changes_check :
    combinedHash testPrims 40
        (testPrims.getMessageHash (getSessionTypedData testPrims testReq 5) 41) false ≠
      combinedHash testPrims 40
        (testPrims.getMessageHash (getSessionTypedData testPrims testReq 5) 41) true :=
  combinedHash_cache_flag_changes testPrims encodeFelts_injective 40 41
    (getSessionTypedData testPrims testReq 5)

/-- Claim C8: the owner's session-authorization signature array appears in
the compiled SessionToken exactly as passed in, in the
`session_authorization` field. -/
theorem session_authorization_passthrough (P : Prims) (dappKey : DappKey)
    (session : OnChainSession) (req : OffChainSession) (calls : List Call)
    (sessionSignature : List F) (auth : List F) (guardianSignature : GuardianSig)
    (cache : Bool) :
    (compileSessionTokenHelper P dappKey session req calls sessionSignature
        auth guardianSignature cache).session_authorization = auth := rfl

/-- Claim C9: `SessionSigner.signRaw` fails with the error
`Method not implemented.` on every input string. -/
theorem signRaw_not_implemented (s : SessionSigner) (message : String) :
    s.signRaw message = Except.error "Method not implemented." := rfl

/-- Claim C10, as stated, is false: with signer public key 5, dapp signature
`[1, 2]` and stored session signature `[3, 4, 6, 7]`, the calldata of the
prepended session call is `[5, 1, 2, 3, 4, 6, 7]` — it starts with the
signer public key, not with the dapp signature, so it is not the
six-element packing the claim describes. -/
theorem extendCalls_calldata_counterexample :
    ¬((extendCallsBySession 9 5 [3, 4, 6, 7] [] [1, 2]).head?.map
        OffchainSessionCall.calldata = some [1, 2, 3, 4, 6, 7]) := by decide

/-- Claim C10, amended: the submitted call list has length n+1; the
prepended session call targets the account's own address with entrypoint
`use_offchain_session`, and its calldata packs the session signer's public
key, then the dapp signature (2 elements), then the owner and cosigner
halves of the stored session signature (4 elements); the original calls
follow in their given order. -/
theorem extendCallsBySession_amended (address signerPubKey : F)
    (sessionSignature : List F) (calls : List OffchainSessionCall)
    (dappSignature : List F) :
    (extendCallsBySession address signerPubKey sessionSignature calls
        dappSignature).length = calls.length + 1 ∧
    extendCallsBySession address signerPubKey sessionSignature calls dappSignature =
      { contractAddress := address
        entrypoint := "use_offchain_session"
        calldata := [signerPubKey,
                     dappSignature.getD 0 0, dappSignature.getD 1 0,
                     sessionSignature.getD 0 0, sessionSignature.getD 1 0,
                     sessionSignature.getD 2 0, sessionSignature.getD 3 0] } :: calls :=
  ⟨rfl, rfl⟩

end XSessions
